import Mathlib

/-!
Verification of the announcements CRUD module
(`src/backend/routers/announcements.py`) against its natural-language
specification.  The Python module is shallowly embedded below: records are
structures, the document store is an association list keyed by id strings,
datetimes are calendar dates paired with a seconds-of-day count (Python
`datetime` comparison is lexicographic on its components), and every
fallible endpoint body is a function into `Except HTTPError _`.
-/

namespace Announcements

/-- A calendar date, compared lexicographically (year, month, day), as Python
`datetime.date` comparison behaves. -/
structure Date where
  year : Nat
  month : Nat
  day : Nat
deriving DecidableEq, Repr

/-- A point in time: a calendar date plus a seconds-of-day count in
`[0, 86400)`.  Python `datetime` carries microseconds as well; the module only
ever constructs times at whole seconds (`time(23, 59, 59)`), so second
granularity suffices. -/
structure DateTime where
  date : Date
  sec : Nat
deriving DecidableEq, Repr

/-- Strict lexicographic order on dates, as Python compares `date` values. -/
def Date.lt (a b : Date) : Prop :=
  a.year < b.year ∨
    (a.year = b.year ∧ (a.month < b.month ∨ (a.month = b.month ∧ a.day < b.day)))

instance (a b : Date) : Decidable (Date.lt a b) := by
  unfold Date.lt; infer_instance

/-- Strict order on datetimes: date first, then time of day. -/
def DateTime.lt (a b : DateTime) : Prop :=
  Date.lt a.date b.date ∨ (a.date = b.date ∧ a.sec < b.sec)

/-- Non-strict order on datetimes. -/
def DateTime.le (a b : DateTime) : Prop :=
  Date.lt a.date b.date ∨ (a.date = b.date ∧ a.sec ≤ b.sec)

instance (a b : DateTime) : Decidable (DateTime.lt a b) := by
  unfold DateTime.lt; infer_instance

instance (a b : DateTime) : Decidable (DateTime.le a b) := by
  unfold DateTime.le; infer_instance

/-- The error a handler surfaces: an HTTP status code plus a detail string,
mirroring `HTTPException(status_code=..., detail=...)`. -/
structure HTTPError where
  status : Nat
  detail : String
deriving DecidableEq, Repr

def emptyMessageError : HTTPError := ⟨400, "Message cannot be empty"⟩
def messageTooLongError : HTTPError := ⟨400, "Message too long (max 500 characters)"⟩
def invalidDateError : HTTPError := ⟨400, "Invalid date format. Use YYYY-MM-DD"⟩
def expirationPastError : HTTPError := ⟨400, "Expiration date must be in the future"⟩
def startAfterExpirationError : HTTPError := ⟨400, "Start date must be before expiration date"⟩
def notFoundError : HTTPError := ⟨404, "Announcement not found"⟩
def invalidIdError : HTTPError := ⟨400, "Invalid announcement ID"⟩
def authRequiredError : HTTPError := ⟨401, "Authentication required for this action"⟩
def invalidCredentialsError : HTTPError := ⟨401, "Invalid teacher credentials"⟩

/-- `MAX_MESSAGE_LENGTH` constant from the module. -/
def MAX_MESSAGE_LENGTH : Nat := 500

/-- An announcement document as stored.  `expiration_date`, `created_at` and
`created_by` are always written by `create_announcement`; `start_date` is the
one field that may be absent, hence `Option`.  The Mongo `_id` is the store
key and is kept outside the record. -/
structure Announcement where
  message : String
  expiration_date : DateTime
  start_date : Option DateTime
  created_at : DateTime
  created_by : String
deriving DecidableEq, Repr

/-- The announcements collection: documents keyed by their id string. -/
abbrev Store := List (String × Announcement)

/-- `find_one` on the collection by id. -/
def findOne (store : Store) (id : String) : Option Announcement :=
  match store.find? (fun p => p.1 = id) with
  | some p => some p.2
  | none => none

/-- `bson.ObjectId(s)` succeeds on a string exactly when it is 24 hex
characters; otherwise the constructor raises, which each handler catches and
turns into a 400 error. -/
def isValidObjectId (s : String) : Bool :=
  s.length == 24 &&
    s.toList.all (fun c => c.isDigit || ('a' ≤ c && c ≤ 'f') || ('A' ≤ c && c ≤ 'F'))

/-- `verify_teacher`: the credential check dependency.  The teacher store is
modelled by the list of existing teacher usernames (Mongo `_id` values). -/
def verify_teacher (teachers : List String) (teacher_username : Option String) :
    Except HTTPError String :=
  match teacher_username with
  | none => .error authRequiredError
  | some u =>
      if u = "" then .error authRequiredError
      else if teachers.contains u then .ok u
      else .error invalidCredentialsError

/-- Whitespace as Python `str.strip()` removes it (the ASCII whitespace
characters; the module never feeds it anything else). -/
def pyIsSpace (c : Char) : Bool :=
  c = ' ' ∨ c = '\t' ∨ c = '\n' ∨ c = '\x0b' ∨ c = '\x0c' ∨ c = '\r'

/-- Python `s.strip()`: drop whitespace from both ends. -/
def pyStrip (s : String) : String :=
  String.mk (((s.toList.dropWhile pyIsSpace).reverse.dropWhile pyIsSpace).reverse)

/-- `validate_message`: rejects a message that is falsy (the empty string) or
strips to empty, then rejects a message whose (unstripped) length exceeds
`MAX_MESSAGE_LENGTH`. -/
def validate_message (message : String) : Except HTTPError Unit :=
  if message = "" ∨ (pyStrip message).length = 0 then
    .error emptyMessageError
  else if message.length > MAX_MESSAGE_LENGTH then
    .error messageTooLongError
  else
    .ok ()

/-- Digit character to its value. -/
def digitVal (c : Char) : Nat := c.toNat - 48

/-- Gregorian leap-year rule, as `datetime` uses. -/
def isLeapYear (y : Nat) : Bool := (y % 4 == 0 && y % 100 != 0) || y % 400 == 0

/-- Number of days in a month of a given year. -/
def daysInMonth (y m : Nat) : Nat :=
  if m = 2 then (if isLeapYear y then 29 else 28)
  else if m = 4 ∨ m = 6 ∨ m = 9 ∨ m = 11 then 30
  else 31

/-- `datetime.fromisoformat` restricted to the `YYYY-MM-DD` calendar-date form
the module documents (`Use YYYY-MM-DD`): four year digits, two month digits,
two day digits, dashes in between, and the date must exist on the calendar
(month 1–12, day within the month, year at least 1). -/
def parseIsoDate (s : String) : Option Date :=
  match s.toList with
  | [y1, y2, y3, y4, c1, m1, m2, c2, d1, d2] =>
      if c1 = '-' ∧ c2 = '-' ∧ y1.isDigit ∧ y2.isDigit ∧ y3.isDigit ∧ y4.isDigit ∧
          m1.isDigit ∧ m2.isDigit ∧ d1.isDigit ∧ d2.isDigit then
        let y := ((digitVal y1 * 10 + digitVal y2) * 10 + digitVal y3) * 10 + digitVal y4
        let m := digitVal m1 * 10 + digitVal m2
        let d := digitVal d1 * 10 + digitVal d2
        if 1 ≤ y ∧ 1 ≤ m ∧ m ≤ 12 ∧ 1 ≤ d ∧ d ≤ daysInMonth y m then
          some ⟨y, m, d⟩
        else none
      else none
  | _ => none

/-- 23:59:59 as a seconds-of-day count. -/
def endOfDaySec : Nat := 86399

/-- `normalize_date_to_end_of_day`: parse the date string and set the time to
23:59:59 of that calendar date; an unparsable string yields the 400 error. -/
def normalize_date_to_end_of_day (date_str : String) : Except HTTPError DateTime :=
  match parseIsoDate date_str with
  | some d => .ok ⟨d, endOfDaySec⟩
  | none => .error invalidDateError

/-- The Mongo `active_only` filter from `get_announcements`:
`(start_date not exists ∧ expiration_date ≥ now) ∨
 (start_date ≤ now ∧ expiration_date ≥ now)` — in Mongo a `$lte` clause only
matches documents where the field exists. -/
def matchesActiveQuery (now : DateTime) (a : Announcement) : Bool :=
  (a.start_date.isNone && decide (DateTime.le now a.expiration_date)) ||
    ((match a.start_date with
      | some s => decide (DateTime.le s now)
      | none => false) && decide (DateTime.le now a.expiration_date))

/-- The sort key relation of `.sort("created_at", -1)`: `created_at`
descending. -/
def createdDesc (x y : Announcement) : Prop :=
  DateTime.le y.created_at x.created_at

instance : DecidableRel createdDesc := fun x y =>
  inferInstanceAs (Decidable (DateTime.le y.created_at x.created_at))

/-- `get_announcements`: filter by the active query when `active_only`, then
return documents ordered by `created_at` descending. -/
def get_announcements (store : List Announcement) (active_only : Bool) (now : DateTime) :
    List Announcement :=
  List.insertionSort createdDesc
    (if active_only then store.filter (matchesActiveQuery now) else store)

/-- `get_announcement`: a malformed id makes `ObjectId` raise, caught by the
blanket handler into the 400 invalid-id error; a well-formed id with no
matching document yields 404. -/
def get_announcement (store : Store) (id : String) : Except HTTPError Announcement :=
  if isValidObjectId id = false then .error invalidIdError
  else
    match findOne store id with
    | none => .error notFoundError
    | some a => .ok a

/-- The `start` block of `create_announcement` (source lines 168–173): Python
`if start_date:` skips both `None` and the empty string without parsing; a
truthy string is parsed and compared against the expiration. -/
def parseCreateStart (start_date : Option String) (exp_date : DateTime) :
    Except HTTPError (Option DateTime) :=
  match start_date with
  | none => .ok none
  | some s =>
    if s = "" then .ok none
    else
      match normalize_date_to_end_of_day s with
      | .error e => .error e
      | .ok st =>
        if DateTime.lt exp_date st then .error startAfterExpirationError
        else .ok (some st)

/-- `create_announcement` handler body (the teacher argument is the document
`verify_teacher` resolved; `now` stands for `datetime.utcnow()`).  Returns the
document it inserts. -/
def create_announcement (message expiration_date : String) (start_date : Option String)
    (teacher : String) (now : DateTime) : Except HTTPError Announcement :=
  match validate_message message with
  | .error e => .error e
  | .ok _ =>
    match normalize_date_to_end_of_day expiration_date with
    | .error e => .error e
    | .ok exp_date =>
      if DateTime.lt exp_date now then .error expirationPastError
      else
        match parseCreateStart start_date exp_date with
        | .error e => .error e
        | .ok start =>
          .ok { message := message, expiration_date := exp_date, start_date := start,
                created_at := now, created_by := teacher }

/-- `update_announcement` line 213: the message is validated only when
supplied. -/
def validateOptMessage (message : Option String) : Except HTTPError Unit :=
  match message with
  | some m => validate_message m
  | none => .ok ()

/-- `update_announcement` lines 227–232: a supplied expiration string is
parsed, normalized and required not to be before `now`; `none` means the
field is untouched. -/
def parseNewExpiration (expiration_date : Option String) (now : DateTime) :
    Except HTTPError (Option DateTime) :=
  match expiration_date with
  | none => .ok none
  | some es =>
    match normalize_date_to_end_of_day es with
    | .error e => .error e
    | .ok e => if DateTime.lt e now then .error expirationPastError else .ok (some e)

/-- `update_announcement` lines 234–247: the result distinguishes
_not supplied_ (`none`: field untouched), _empty-string sentinel_
(`some none`: field unset), and _set_ (`some (some st)`).  `chosenExp` is
`update_fields.get("expiration_date", announcement.get("expiration_date"))`. -/
def parseNewStart (start_date : Option String) (chosenExp : DateTime) :
    Except HTTPError (Option (Option DateTime)) :=
  match start_date with
  | none => .ok none
  | some ss =>
    if ss = "" then .ok (some none)
    else
      match normalize_date_to_end_of_day ss with
      | .error e => .error e
      | .ok st =>
        if DateTime.lt chosenExp st then .error startAfterExpirationError
        else .ok (some (some st))

/-- The patch `update_announcement` applies to the matched document (source
lines 212–253): validate the message if supplied; parse and future-check a
supplied expiration; then handle a supplied start date, validating it against
the newly supplied expiration when present, else the document's existing one;
finally overwrite exactly the supplied fields. -/
def applyUpdate (rec : Announcement) (message expiration_date start_date : Option String)
    (now : DateTime) : Except HTTPError Announcement :=
  match validateOptMessage message with
  | .error e => .error e
  | .ok _ =>
    match parseNewExpiration expiration_date now with
    | .error e => .error e
    | .ok newExp =>
      match parseNewStart start_date (newExp.getD rec.expiration_date) with
      | .error e => .error e
      | .ok newStart =>
        .ok { rec with
              message := message.getD rec.message,
              expiration_date := newExp.getD rec.expiration_date,
              start_date := newStart.getD rec.start_date }

/-- `update_announcement` endpoint: message validation happens before the
`try` block, then a malformed id makes `ObjectId` raise (caught into the 400
invalid-id error), then a missing document yields 404, then the patch is
applied and the updated document returned. -/
def update_announcement (store : Store) (id : String)
    (message expiration_date start_date : Option String) (now : DateTime) :
    Except HTTPError (Store × Announcement) :=
  match validateOptMessage message with
  | .error e => .error e
  | .ok _ =>
    if isValidObjectId id = false then .error invalidIdError
    else
      match findOne store id with
      | none => .error notFoundError
      | some rec =>
        match applyUpdate rec message expiration_date start_date now with
        | .error e => .error e
        | .ok rec2 =>
          .ok (store.map (fun p => if p.1 = id then (p.1, rec2) else p), rec2)

/-- `delete_announcement`: malformed id → 400 invalid-id error; `delete_one`
matching nothing → 404; otherwise the first matching document is removed and a
confirmation message returned. -/
def delete_announcement (store : Store) (id : String) :
    Except HTTPError (Store × String) :=
  if isValidObjectId id = false then .error invalidIdError
  else if (findOne store id).isNone then .error notFoundError
  else .ok (store.eraseP (fun p => p.1 == id), "Announcement deleted successfully")

/-- A handler body succeeded: it returned `ok` of something. -/
def succeeds {α : Type} (r : Except HTTPError α) : Prop := ∃ a, r = Except.ok a

instance {α : Type} (r : Except HTTPError α) : Decidable (succeeds r) :=
  match r with
  | .ok a => isTrue ⟨a, rfl⟩
  | .error _ => isFalse (fun h => by rcases h with ⟨a, h⟩; exact Except.noConfusion h)

theorem DateTime.le_total (a b : DateTime) : DateTime.le a b ∨ DateTime.le b a := by
  obtain ⟨⟨ya, ma, da⟩, sa⟩ := a
  obtain ⟨⟨yb, mb, db⟩, sb⟩ := b
  simp only [DateTime.le, Date.lt, Date.mk.injEq]
  omega

theorem DateTime.le_trans {a b c : DateTime} (hab : DateTime.le a b) (hbc : DateTime.le b c) :
    DateTime.le a c := by
  obtain ⟨⟨ya, ma, da⟩, sa⟩ := a
  obtain ⟨⟨yb, mb, db⟩, sb⟩ := b
  obtain ⟨⟨yc, mc, dc⟩, sc⟩ := c
  simp only [DateTime.le, Date.lt, Date.mk.injEq] at hab hbc ⊢
  omega

theorem DateTime.not_lt_iff {a b : DateTime} : ¬ DateTime.lt a b ↔ DateTime.le b a := by
  obtain ⟨⟨ya, ma, da⟩, sa⟩ := a
  obtain ⟨⟨yb, mb, db⟩, sb⟩ := b
  simp only [DateTime.lt, DateTime.le, Date.lt, Date.mk.injEq]
  omega

instance : IsTotal Announcement createdDesc :=
  ⟨fun x y => DateTime.le_total y.created_at x.created_at⟩

instance : IsTrans Announcement createdDesc :=
  ⟨fun _ _ _ hxy hyz => DateTime.le_trans hyz hxy⟩

/-- A message of one `a` followed by 500 spaces: it strips to a single
character, yet its raw length is 501. -/
def longPaddedMessage : String := String.mk ('a' :: List.replicate 500 ' ')

set_option maxRecDepth 8192 in
/-- C5: the claim says `validate_message` accepts exactly the messages whose
stripped length is between 1 and 500.  It does not: the length cap is applied
to the raw, unstripped string.  `longPaddedMessage` strips to the single
character `a` (stripped length 1, well within bounds), yet it is rejected as
too long because its raw length is 501. -/
theorem C5_counterexample :
    (pyStrip longPaddedMessage).length = 1 ∧
    1 ≤ MAX_MESSAGE_LENGTH ∧
    validate_message longPaddedMessage = Except.error messageTooLongError := by
  refine ⟨by decide, by decide, ?_⟩
  rfl

/-- C5 (amended): `validate_message` succeeds exactly when the stripped
message is non-empty and the RAW (unstripped) length is at most
`MAX_MESSAGE_LENGTH`; equivalently, it fails with a 400 error exactly when the
message strips to empty or its unstripped length exceeds 500. -/
theorem C5_message_validation (m : String) :
    validate_message m = Except.ok () ↔
      (pyStrip m).length ≠ 0 ∧ m.length ≤ MAX_MESSAGE_LENGTH := by
  unfold validate_message MAX_MESSAGE_LENGTH
  split_ifs with h1 h2
  · refine iff_of_false (by simp) ?_
    rintro ⟨hne, -⟩
    rcases h1 with h | h
    · subst h; exact hne (by decide)
    · exact hne h
  · refine iff_of_false (by simp) ?_
    rintro ⟨-, hle⟩
    omega
  · push_neg at h1
    exact iff_of_true rfl ⟨h1.2, by omega⟩

/-- C5 witness: the amended equivalence evaluated at the concrete message
`hello`. -/
theorem C5_message_validation_witness :
    validate_message "hello" = Except.ok () ↔
      (pyStrip "hello").length ≠ 0 ∧ "hello".length ≤ MAX_MESSAGE_LENGTH :=
  C5_message_validation "hello"

/-- C1: the claim says a malformed id makes `get` fail with NotFound (404).
It does not: on the empty store, the malformed id `not-a-valid-id` makes
`ObjectId` raise, and the handler answers with the 400 invalid-id error, a
different error from the 404 returned when no record matches. -/
theorem C1_counterexample :
    get_announcement [] "not-a-valid-id" = Except.error invalidIdError ∧
    invalidIdError.status = 400 ∧
    notFoundError.status = 404 ∧
    invalidIdError ≠ notFoundError := by
  exact ⟨rfl, rfl, rfl, by decide⟩

/-- C1 (amended): a malformed id makes `get`, `update` and `delete` fail with
the 400 InvalidInput error `Invalid announcement ID`; the 404 NotFound error
is returned exactly when the id is well-formed but no record matches. -/
theorem C1_error_codes (store : Store) (id id2 : String) (now : DateTime)
    (h : isValidObjectId id = false)
    (h2 : isValidObjectId id2 = true) (h3 : findOne store id2 = none) :
    get_announcement store id = Except.error invalidIdError ∧
    update_announcement store id none none none now = Except.error invalidIdError ∧
    delete_announcement store id = Except.error invalidIdError ∧
    get_announcement store id2 = Except.error notFoundError ∧
    update_announcement store id2 none none none now = Except.error notFoundError ∧
    delete_announcement store id2 = Except.error notFoundError := by
  refine ⟨?_, ?_, ?_, ?_, ?_, ?_⟩ <;>
    simp [get_announcement, update_announcement, delete_announcement,
      validateOptMessage, h, h2, h3]

/-- C1 witness: the amended statement at the malformed id `zz` and the
well-formed but unmatched id `0123456789abcdef01234567` on the empty store. -/
theorem C1_error_codes_witness :
    get_announcement [] "zz" = Except.error invalidIdError ∧
    update_announcement [] "zz" none none none ⟨⟨2025, 1, 1⟩, 0⟩ =
      Except.error invalidIdError ∧
    delete_announcement [] "zz" = Except.error invalidIdError ∧
    get_announcement [] "0123456789abcdef01234567" = Except.error notFoundError ∧
    update_announcement [] "0123456789abcdef01234567" none none none ⟨⟨2025, 1, 1⟩, 0⟩ =
      Except.error notFoundError ∧
    delete_announcement [] "0123456789abcdef01234567" = Except.error notFoundError :=
  C1_error_codes [] "zz" "0123456789abcdef01234567" ⟨⟨2025, 1, 1⟩, 0⟩
    (by decide) (by decide) rfl

/-- A sample stored announcement: expires 2099-12-31, starts 2099-06-01,
created at the start of 2025 by teacher `t`. -/
def sampleRec : Announcement :=
  ⟨"m", ⟨⟨2099, 12, 31⟩, endOfDaySec⟩, some ⟨⟨2099, 6, 1⟩, endOfDaySec⟩,
    ⟨⟨2025, 1, 1⟩, 0⟩, "t"⟩

/-- C2: the claim says an expiration whose normalized timestamp equals the
current time exactly is rejected.  It is not: both handlers use a strict
`exp_date < now` comparison, so when `now` is exactly 23:59:59 of 2099-01-01
— equal to the normalized expiration — create and update both succeed. -/
theorem C2_counterexample :
    normalize_date_to_end_of_day "2099-01-01" =
      Except.ok ⟨⟨2099, 1, 1⟩, endOfDaySec⟩ ∧
    create_announcement "hi" "2099-01-01" none "t" ⟨⟨2099, 1, 1⟩, endOfDaySec⟩ =
      Except.ok ⟨"hi", ⟨⟨2099, 1, 1⟩, endOfDaySec⟩, none,
        ⟨⟨2099, 1, 1⟩, endOfDaySec⟩, "t"⟩ ∧
    succeeds (applyUpdate sampleRec none (some "2099-01-01") none
      ⟨⟨2099, 1, 1⟩, endOfDaySec⟩) :=
  ⟨rfl, rfl, by decide⟩

/-- C2 (amended): with a valid message and a parsable expiration string whose
normalization is `e`, create (without start date) and update (supplying only
the expiration) fail with the InvalidInput error `Expiration date must be in
the future` exactly when `e` is strictly BEFORE the current time; an
expiration equal to the current time is accepted. -/
theorem C2_expiration_check (rec : Announcement) (m es t : String) (now e : DateTime)
    (hm : validate_message m = Except.ok ())
    (he : normalize_date_to_end_of_day es = Except.ok e) :
    (DateTime.lt e now →
       create_announcement m es none t now = Except.error expirationPastError) ∧
    (succeeds (create_announcement m es none t now) ↔ ¬ DateTime.lt e now) ∧
    (DateTime.lt e now →
       applyUpdate rec none (some es) none now = Except.error expirationPastError) ∧
    (succeeds (applyUpdate rec none (some es) none now) ↔ ¬ DateTime.lt e now) := by
  unfold create_announcement applyUpdate validateOptMessage parseNewExpiration
  simp only [hm, he]
  by_cases hlt : DateTime.lt e now <;>
    simp [hlt, parseCreateStart, parseNewStart, succeeds]

/-- C2 witness: the amended statement evaluated at message `hi`, expiration
`2099-01-01` (normalizing to 23:59:59 of that day) and a current time at the
start of 2100, which is strictly after the expiration. -/
theorem C2_expiration_check_witness :
    (DateTime.lt ⟨⟨2099, 1, 1⟩, endOfDaySec⟩ (⟨⟨2100, 1, 1⟩, 0⟩ : DateTime) →
       create_announcement "hi" "2099-01-01" none "t" ⟨⟨2100, 1, 1⟩, 0⟩ =
         Except.error expirationPastError) ∧
    (succeeds (create_announcement "hi" "2099-01-01" none "t" ⟨⟨2100, 1, 1⟩, 0⟩) ↔
       ¬ DateTime.lt ⟨⟨2099, 1, 1⟩, endOfDaySec⟩ (⟨⟨2100, 1, 1⟩, 0⟩ : DateTime)) ∧
    (DateTime.lt ⟨⟨2099, 1, 1⟩, endOfDaySec⟩ (⟨⟨2100, 1, 1⟩, 0⟩ : DateTime) →
       applyUpdate sampleRec none (some "2099-01-01") none ⟨⟨2100, 1, 1⟩, 0⟩ =
         Except.error expirationPastError) ∧
    (succeeds (applyUpdate sampleRec none (some "2099-01-01") none ⟨⟨2100, 1, 1⟩, 0⟩) ↔
       ¬ DateTime.lt ⟨⟨2099, 1, 1⟩, endOfDaySec⟩ (⟨⟨2100, 1, 1⟩, 0⟩ : DateTime)) :=
  C2_expiration_check sampleRec "hi" "2099-01-01" "t" ⟨⟨2100, 1, 1⟩, 0⟩
    ⟨⟨2099, 1, 1⟩, endOfDaySec⟩ rfl rfl

/-- The current time used for the C4 failing input. -/
def c4Now : DateTime := ⟨⟨2025, 1, 1⟩, 0⟩

/-- C4 is violated by the code: `sampleRec` satisfies the invariant
(start 2099-06-01 ≤ expiration 2099-12-31), but an update supplying only a new
expiration of 2099-01-01 — in the future, so the future check passes — is
accepted without being compared against the record's existing start date, and
the resulting record has start 2099-06-01 strictly AFTER expiration
2099-01-01, breaking the invariant. -/
theorem C4_violation :
    sampleRec.start_date = some ⟨⟨2099, 6, 1⟩, endOfDaySec⟩ ∧
    DateTime.le (⟨⟨2099, 6, 1⟩, endOfDaySec⟩ : DateTime) sampleRec.expiration_date ∧
    ¬ DateTime.lt (⟨⟨2099, 1, 1⟩, endOfDaySec⟩ : DateTime) c4Now ∧
    applyUpdate sampleRec none (some "2099-01-01") none c4Now =
      Except.ok ⟨"m", ⟨⟨2099, 1, 1⟩, endOfDaySec⟩, some ⟨⟨2099, 6, 1⟩, endOfDaySec⟩,
        ⟨⟨2025, 1, 1⟩, 0⟩, "t"⟩ ∧
    ¬ DateTime.le (⟨⟨2099, 6, 1⟩, endOfDaySec⟩ : DateTime)
        (⟨⟨2099, 1, 1⟩, endOfDaySec⟩ : DateTime) :=
  ⟨rfl, by decide, by decide, rfl, by decide⟩

/-- C3: with `active_only` true, the listing returns exactly the stored
records satisfying (`start_date` absent and `expiration_date ≥ now`) or
(`start_date ≤ now ≤ expiration_date`), ordered by `created_at` descending;
with `active_only` false it returns all stored records in the same
`created_at`-descending order. -/
theorem C3_list_filter_and_order (store : List Announcement) (now : DateTime) :
    List.Perm (get_announcements store true now)
      (store.filter (matchesActiveQuery now)) ∧
    (∀ a : Announcement, matchesActiveQuery now a = true ↔
       ((a.start_date = none ∧ DateTime.le now a.expiration_date) ∨
        (∃ s, a.start_date = some s ∧ DateTime.le s now ∧
          DateTime.le now a.expiration_date))) ∧
    List.Sorted createdDesc (get_announcements store true now) ∧
    List.Perm (get_announcements store false now) store ∧
    List.Sorted createdDesc (get_announcements store false now) := by
  refine ⟨?_, ?_, ?_, ?_, ?_⟩
  · simpa [get_announcements] using
      List.perm_insertionSort createdDesc (store.filter (matchesActiveQuery now))
  · intro a
    unfold matchesActiveQuery
    cases h : a.start_date <;> simp [h]
  · simpa [get_announcements] using
      List.sorted_insertionSort createdDesc (store.filter (matchesActiveQuery now))
  · simpa [get_announcements] using List.perm_insertionSort createdDesc store
  · simpa [get_announcements] using List.sorted_insertionSort createdDesc store

theorem applyUpdate_ok_shape (rec : Announcement)
    (message expiration_date start_date : Option String) (now : DateTime)
    (rec2 : Announcement)
    (hok : applyUpdate rec message expiration_date start_date now = Except.ok rec2) :
    ∃ newExp newStart,
      parseNewExpiration expiration_date now = Except.ok newExp ∧
      parseNewStart start_date (newExp.getD rec.expiration_date) = Except.ok newStart ∧
      rec2 = { rec with
               message := message.getD rec.message,
               expiration_date := newExp.getD rec.expiration_date,
               start_date := newStart.getD rec.start_date } := by
  unfold applyUpdate at hok
  cases hv : validateOptMessage message with
  | error e => simp [hv] at hok
  | ok u =>
    simp only [hv] at hok
    cases hexp : parseNewExpiration expiration_date now with
    | error e => simp [hexp] at hok
    | ok newExp =>
      simp only [hexp] at hok
      cases hst : parseNewStart start_date (newExp.getD rec.expiration_date) with
      | error e => simp [hst] at hok
      | ok newStart =>
        simp only [hst, Except.ok.injEq] at hok
        exact ⟨newExp, newStart, rfl, hst, hok.symm⟩

theorem map_fst_update (store : Store) (id : String) (rec2 : Announcement) :
    (store.map (fun p => if p.1 = id then (p.1, rec2) else p)).map Prod.fst =
      store.map Prod.fst := by
  induction store with
  | nil => rfl
  | cons p t ih =>
    simp only [List.map_cons, ih]
    by_cases h : p.1 = id <;> simp [h]

/-- C6: a successful update changes only the supplied fields of the matched
record: any of message, expiration and start date not supplied keeps its prior
value, `created_at` and `created_by` are never touched, and the set of record
ids in the store is unchanged. -/
theorem C6_update_frame (store : Store) (id : String)
    (message expiration_date start_date : Option String) (now : DateTime)
    (store2 : Store) (rec rec2 : Announcement)
    (hrec : findOne store id = some rec)
    (hok : update_announcement store id message expiration_date start_date now =
      Except.ok (store2, rec2)) :
    (message = none → rec2.message = rec.message) ∧
    (expiration_date = none → rec2.expiration_date = rec.expiration_date) ∧
    (start_date = none → rec2.start_date = rec.start_date) ∧
    rec2.created_at = rec.created_at ∧
    rec2.created_by = rec.created_by ∧
    store2.map Prod.fst = store.map Prod.fst := by
  unfold update_announcement at hok
  cases hv : validateOptMessage message with
  | error e => simp [hv] at hok
  | ok u =>
    simp only [hv] at hok
    by_cases hid : isValidObjectId id = false
    · rw [if_pos hid] at hok
      exact Except.noConfusion hok
    · rw [if_neg hid] at hok
      simp only [hrec] at hok
      cases happ : applyUpdate rec message expiration_date start_date now with
      | error e => simp [happ] at hok
      | ok r2 =>
        simp only [happ, Except.ok.injEq, Prod.mk.injEq] at hok
        obtain ⟨hstore, hrec2⟩ := hok
        obtain ⟨newExp, newStart, hexp, hst, hshape⟩ :=
          applyUpdate_ok_shape rec message expiration_date start_date now r2 happ
        subst hrec2
        subst hshape
        refine ⟨?_, ?_, ?_, rfl, rfl, ?_⟩
        · rintro rfl; rfl
        · rintro rfl
          rw [show parseNewExpiration none now = Except.ok none from rfl] at hexp
          cases hexp
          rfl
        · rintro rfl
          rw [show parseNewStart none (newExp.getD rec.expiration_date) =
            Except.ok none from rfl] at hst
          cases hst
          rfl
        · rw [← hstore]
          exact map_fst_update store id _

/-- A well-formed ObjectId string used for concrete store states. -/
def goodId : String := "0123456789abcdef01234567"

/-- `sampleRec` after an update that supplies only the message `new`. -/
def updatedSampleRec : Announcement :=
  ⟨"new", ⟨⟨2099, 12, 31⟩, endOfDaySec⟩, some ⟨⟨2099, 6, 1⟩, endOfDaySec⟩,
    ⟨⟨2025, 1, 1⟩, 0⟩, "t"⟩

/-- C6 witness: updating only the message of `sampleRec` in a one-record
store leaves expiration, start date, `created_at`, `created_by` and the store
keys unchanged. -/
theorem C6_update_frame_witness :
    ((some "new" : Option String) = none → updatedSampleRec.message = sampleRec.message) ∧
    ((none : Option String) = none →
       updatedSampleRec.expiration_date = sampleRec.expiration_date) ∧
    ((none : Option String) = none → updatedSampleRec.start_date = sampleRec.start_date) ∧
    updatedSampleRec.created_at = sampleRec.created_at ∧
    updatedSampleRec.created_by = sampleRec.created_by ∧
    ([(goodId, updatedSampleRec)].map Prod.fst) = ([(goodId, sampleRec)].map Prod.fst) :=
  C6_update_frame [(goodId, sampleRec)] goodId (some "new") none none c4Now
    [(goodId, updatedSampleRec)] sampleRec updatedSampleRec rfl rfl

/-- C7: supplying the empty string for `start_date` on update removes the
field: whatever other fields the call supplies, a successful update with the
empty-string sentinel yields a record whose `start_date` is absent. -/
theorem C7_clear_start_sentinel (rec : Announcement)
    (message expiration_date : Option String) (now : DateTime) (rec2 : Announcement)
    (hok : applyUpdate rec message expiration_date (some "") now = Except.ok rec2) :
    rec2.start_date = none := by
  obtain ⟨newExp, newStart, hexp, hst, hshape⟩ :=
    applyUpdate_ok_shape rec message expiration_date (some "") now rec2 hok
  rw [show parseNewStart (some "") (newExp.getD rec.expiration_date) =
    Except.ok (some none) from rfl] at hst
  cases hst
  subst hshape
  rfl

/-- `sampleRec` after an update that clears the start date. -/
def clearedSampleRec : Announcement :=
  ⟨"m", ⟨⟨2099, 12, 31⟩, endOfDaySec⟩, none, ⟨⟨2025, 1, 1⟩, 0⟩, "t"⟩

/-- C7 witness: clearing the start date of `sampleRec` yields a record with
no `start_date` field. -/
theorem C7_clear_start_sentinel_witness : clearedSampleRec.start_date = none :=
  C7_clear_start_sentinel sampleRec none none c4Now clearedSampleRec rfl

/-- C8: a supplied date string is parsed as a calendar date and normalized to
23:59:59 of that date; an unparsable string yields the InvalidInput date
error; and consequently a create whose expiration date parses to the current
day is accepted, because 23:59:59 of today is not before the current time. -/
theorem C8_date_normalization (s m t : String) (d : Date) (sec : Nat)
    (hm : validate_message m = Except.ok ()) (hsec : sec ≤ endOfDaySec) :
    (∀ d2, parseIsoDate s = some d2 →
       normalize_date_to_end_of_day s = Except.ok ⟨d2, endOfDaySec⟩) ∧
    (parseIsoDate s = none →
       normalize_date_to_end_of_day s = Except.error invalidDateError) ∧
    (parseIsoDate s = some d → succeeds (create_announcement m s none t ⟨d, sec⟩)) := by
  refine ⟨?_, ?_, ?_⟩
  · intro d2 h
    unfold normalize_date_to_end_of_day
    rw [h]
  · intro h
    unfold normalize_date_to_end_of_day
    rw [h]
  · intro h
    unfold create_announcement normalize_date_to_end_of_day
    simp only [hm, h]
    have hnl : ¬ DateTime.lt ⟨d, endOfDaySec⟩ ⟨d, sec⟩ := by
      rw [DateTime.not_lt_iff]
      unfold DateTime.le
      exact Or.inr ⟨rfl, hsec⟩
    simp [hnl, parseCreateStart, succeeds]

/-- C8 witness: the statement evaluated at the date string `2099-01-01` at
midnight of that same day — creating with expiration equal to "today" is
accepted. -/
theorem C8_date_normalization_witness :
    succeeds (create_announcement "hi" "2099-01-01" none "t" ⟨⟨2099, 1, 1⟩, 0⟩) :=
  (C8_date_normalization "2099-01-01" "hi" "t" ⟨2099, 1, 1⟩ 0 rfl
    (by decide)).2.2 rfl

/-- C9: when update supplies a non-empty start date, it is checked against
the newly supplied expiration when one is given, else against the record's
existing expiration, and the call fails with the InvalidInput ordering error
exactly when the new start is after that chosen expiration. -/
theorem C9_start_vs_chosen_expiration (rec : Announcement) (ss es : String)
    (now st e : DateTime)
    (hss : ss ≠ "") (hst : normalize_date_to_end_of_day ss = Except.ok st)
    (he : normalize_date_to_end_of_day es = Except.ok e) (hfut : ¬ DateTime.lt e now) :
    (applyUpdate rec none (some es) (some ss) now =
        Except.error startAfterExpirationError ↔ DateTime.lt e st) ∧
    (applyUpdate rec none none (some ss) now =
        Except.error startAfterExpirationError ↔ DateTime.lt rec.expiration_date st) := by
  unfold applyUpdate validateOptMessage parseNewExpiration parseNewStart
  simp only [he, hst]
  constructor
  · by_cases hlt : DateTime.lt e st <;> simp [hss, hfut, hlt]
  · by_cases hlt : DateTime.lt rec.expiration_date st <;> simp [hss, hlt]

/-- C9 witness: on `sampleRec` (expiration 2099-12-31), the new start
2099-03-01 is after a newly supplied expiration of 2099-02-01 (so the update
supplying both fails), but not after the record's own expiration (so the
update supplying only the start succeeds). -/
theorem C9_start_vs_chosen_expiration_witness :
    (applyUpdate sampleRec none (some "2099-02-01") (some "2099-03-01") c4Now =
        Except.error startAfterExpirationError ↔
      DateTime.lt ⟨⟨2099, 2, 1⟩, endOfDaySec⟩ (⟨⟨2099, 3, 1⟩, endOfDaySec⟩ : DateTime)) ∧
    (applyUpdate sampleRec none none (some "2099-03-01") c4Now =
        Except.error startAfterExpirationError ↔
      DateTime.lt sampleRec.expiration_date ⟨⟨2099, 3, 1⟩, endOfDaySec⟩) :=
  C9_start_vs_chosen_expiration sampleRec "2099-03-01" "2099-02-01" c4Now
    ⟨⟨2099, 3, 1⟩, endOfDaySec⟩ ⟨⟨2099, 2, 1⟩, endOfDaySec⟩
    (by decide) rfl rfl (by decide)

/-- C10: on create, a `start_date` supplied as the empty string behaves
exactly as an absent start date — no parsing, no InvalidInput for it, and the
created record carries no `start_date` field. -/
theorem C10_create_empty_start (m es t : String) (now : DateTime) :
    create_announcement m es (some "") t now = create_announcement m es none t now ∧
    ∀ a, create_announcement m es (some "") t now = Except.ok a →
      a.start_date = none := by
  constructor
  · unfold create_announcement
    simp only [show ∀ exp, parseCreateStart (some "") exp = parseCreateStart none exp
      from fun _ => rfl]
  · intro a h
    unfold create_announcement at h
    cases hv : validate_message m with
    | error e => simp [hv] at h
    | ok u =>
      simp only [hv] at h
      cases hn : normalize_date_to_end_of_day es with
      | error e => simp [hn] at h
      | ok ed =>
        simp only [hn] at h
        by_cases hlt : DateTime.lt ed now
        · rw [if_pos hlt] at h
          exact Except.noConfusion h
        · rw [if_neg hlt] at h
          simp only [show parseCreateStart (some "") ed = Except.ok none from rfl,
            Except.ok.injEq] at h
          rw [← h]

/-- C10 witness: creating with an empty-string start date on 2025-01-01
equals creating with no start date, and the record it produces has no
`start_date` field. -/
theorem C10_create_empty_start_witness :
    (create_announcement "hi" "2099-01-01" (some "") "t" c4Now =
       create_announcement "hi" "2099-01-01" none "t" c4Now) ∧
    (⟨"hi", ⟨⟨2099, 1, 1⟩, endOfDaySec⟩, none, c4Now, "t"⟩ : Announcement).start_date =
      none :=
  ⟨(C10_create_empty_start "hi" "2099-01-01" "t" c4Now).1,
   (C10_create_empty_start "hi" "2099-01-01" "t" c4Now).2
     ⟨"hi", ⟨⟨2099, 1, 1⟩, endOfDaySec⟩, none, c4Now, "t"⟩ rfl⟩

end Announcements
